import Mathlib

/-!
Shallow embedding of `captioning/models/transformer_model.py`:
decoder-input preparation and beam-search state handling for the four
transformer captioning model variants, plus the `EventEncoder` label
conditioning module.

Word-id tensors of shape [N, T] are `List (List Int)` (rows = samples or
beams).  Per-sample attention payloads (`attn_embs[i]`, `attn_emb_lens[i]`,
`attn_emb_mask[i]`, `keywords[i]`) are opaque values of a type parameter;
batch-level tensors are lists of them indexed by sample, beam-level tensors
are lists indexed by beam.  Python dictionary lookups that can raise
`KeyError` / `IndexError` are modelled with `Except String`.
-/

/-- A word-id tensor of shape [N, T]: one row of token ids per sample/beam. -/
abbrev Mat : Type := List (List Int)

/-- Modelled from the spec: `repeat_tensor` (captioning/models/utils.py, not
under src/) takes one sample's tensor and a beam width B and returns the
tensor duplicated identically across a new leading dimension of size B. -/
def repeat_tensor (x : α) (n : Nat) : List α :=
  List.replicate n x

/-- Python dict lookup `d[k]` on an optional field: `KeyError` when absent. -/
def getKey (o : Option α) (k : String) : Except String α :=
  match o with
  | some v => Except.ok v
  | none => Except.error ("KeyError: " ++ k)

/-- Python/torch indexing `xs[i]` along the leading dimension:
`IndexError` when out of range. -/
def getIdx (xs : List α) (i : Nat) : Except String α :=
  match xs[i]? with
  | some v => Except.ok v
  | none => Except.error "IndexError"

/-- `torch.cat((a, b), dim=-1)` for two [N, *] id tensors: row-wise append. -/
def catCols (a b : Mat) : Mat :=
  List.zipWith (fun r s => r ++ s) a b

/-- `m[:, :k]`: keep the first `k` columns of each row. -/
def takeCols (k : Nat) (m : List (List β)) : List (List β) :=
  m.map (fun r => r.take k)

/-- `m[:, :-1]`: drop the last column of each row. -/
def dropLastCol (m : List (List β)) : List (List β) :=
  m.map (fun r => r.dropLast)

/-- `(w == pad_idx)`: elementwise boolean comparison with the pad id. -/
def eqMask (pad_idx : Int) (m : Mat) : List (List Bool) :=
  m.map (fun r => r.map (fun x => x == pad_idx))

/-- `torch.tensor([start_idx] * n).unsqueeze(1)`: an [n, 1] start-token
column. -/
def startColumn (start_idx : Int) (n : Nat) : Mat :=
  List.replicate n [start_idx]

/-- Decoder-input record built by the primary variant (`TransformerModel`)
and passed to its decoder: keys "word", "attn_embs", "attn_emb_lens",
"caps_padding_mask". -/
structure TMDecoderInput (α : Type) where
  word : Mat
  attn_embs : List α
  attn_emb_lens : List α
  caps_padding_mask : List (List Bool)
deriving DecidableEq, Repr

/-- Decoder-input record built by the alternative variant
(`M2TransformerModel`): keys "word", "attn_embs", "attn_emb_mask";
no padding mask is computed. -/
structure M2DecoderInput (α : Type) where
  word : Mat
  attn_embs : List α
  attn_emb_mask : List α
deriving DecidableEq, Repr

/-- Decoder-input record of the event-conditioned variant: the primary
variant's record plus the "events" conditioning tensor (rows of label
embeddings, one per sample/beam). -/
structure EventDecoderInput (α : Type) where
  word : Mat
  attn_embs : List α
  attn_emb_lens : List α
  caps_padding_mask : List (List Bool)
  events : List (List Rat)
deriving DecidableEq, Repr

/-- Decoder-input record of the keyword-conditioned variant: the primary
variant's record plus the "keywords" tensor passed through unchanged. -/
structure KWDecoderInput (α : Type) where
  word : Mat
  attn_embs : List α
  attn_emb_lens : List α
  caps_padding_mask : List (List Bool)
  keywords : List α
deriving DecidableEq, Repr

/-- The `input_dict` of `seq_forward`: batch-level caption tensor and
attention tensors (per-sample payload lists).  Fields irrelevant to a given
variant are simply not read by it. -/
structure SeqForwardInput (α : Type) where
  caps : Mat
  attn_embs : List α
  attn_emb_lens : List α
  attn_emb_mask : List α
  keywords : List α
deriving DecidableEq, Repr

/-- The `input_dict` of `prepare_decoder_input`: step index `t`, mode
string, scheduled-sampling probability, ground-truth captions and
batch-level attention tensors. -/
structure StepInput (α : Type) where
  attn_embs : List α
  attn_emb_lens : List α
  attn_emb_mask : List α
  t : Nat
  mode : String
  ss_prob : Rat
  caps : Mat
deriving DecidableEq, Repr

/-- The running `output` dict of step-wise decoding: `seqs` holds the
tokens generated so far (one row per sample). -/
structure RunningOutput where
  seqs : Mat
deriving DecidableEq, Repr

/-- The `input_dict` of `prepare_beamsearch_decoder_input`: step index `t`,
sample index `i`, beam width, and the batch-level tensors. -/
structure BeamStepInput (α : Type) where
  attn_embs : List α
  attn_emb_lens : List α
  attn_emb_mask : List α
  t : Nat
  sample_idx : Nat
  beam_size : Nat
deriving DecidableEq, Repr

/-- The per-sample beam-state dict `output_i`.  Every field models a dict
key that may or may not be present; `none` means the key is absent. -/
structure BeamState (α : Type) where
  attn_embs : Option (List α)
  attn_emb_lens : Option (List α)
  attn_emb_mask : Option (List α)
  seqs : Option Mat
  events : Option (List (List Rat))
  keywords : Option (List α)
deriving DecidableEq, Repr

/-- The empty beam state (fresh `output_i` dict before any t=0 call). -/
def BeamState.empty : BeamState α :=
  ⟨none, none, none, none, none, none⟩

/-! ## TransformerModel (primary variant) -/

/-- `TransformerModel.seq_forward`: drops the last token of each caption
row, builds the padding mask as `(caps == pad_idx)[:, :-1]`, and invokes
the decoder once on the assembled record, returning its result. -/
def TransformerModel.seq_forward (pad_idx : Int)
    (decoder : TMDecoderInput α → γ) (input : SeqForwardInput α) : γ :=
  let caps := input.caps
  let caps_padding_mask := dropLastCol (eqMask pad_idx caps)
  decoder
    { word := dropLastCol caps
      attn_embs := input.attn_embs
      attn_emb_lens := input.attn_emb_lens
      caps_padding_mask := caps_padding_mask }

/-- `TransformerModel.prepare_decoder_input`.  The per-call draw of
`random.random()` is the explicit argument `r`; a fresh value is supplied
on every call, so the teacher-forcing choice is re-made independently each
time.  Python's short-circuit `and` means `r` and `caps` are only consumed
when `mode == "train"` (and, for `caps`, when the draw is below the
scheduled-sampling probability). -/
def TransformerModel.prepare_decoder_input (start_idx pad_idx : Int)
    (input : StepInput α) (output : RunningOutput) (r : Rat) :
    TMDecoderInput α :=
  let t := input.t
  let word : Mat :=
    if input.mode = "train" ∧ r < input.ss_prob then
      takeCols (t + 1) input.caps
    else
      let start_word := startColumn start_idx input.attn_embs.length
      if t = 0 then start_word
      else catCols start_word (takeCols t output.seqs)
  { word := word
    attn_embs := input.attn_embs
    attn_emb_lens := input.attn_emb_lens
    caps_padding_mask := eqMask pad_idx word }

/-- `TransformerModel.prepare_beamsearch_decoder_input`.  Returns the
decoder-input record together with the beam state after the call (the
Python code mutates `output_i` in place; here the updated state is
returned).  Dict/index lookups that would raise propagate as
`Except.error`. -/
def TransformerModel.prepare_beamsearch_decoder_input (start_idx pad_idx : Int)
    (input : BeamStepInput α) (output_i : BeamState α) :
    Except String (TMDecoderInput α × BeamState α) :=
  let t := input.t
  let B := input.beam_size
  let step1 : Except String (BeamState α) :=
    if t = 0 then
      match getIdx input.attn_embs input.sample_idx,
            getIdx input.attn_emb_lens input.sample_idx with
      | Except.ok a, Except.ok l =>
        Except.ok { output_i with
                    attn_embs := some (repeat_tensor a B)
                    attn_emb_lens := some (repeat_tensor l B) }
      | Except.error e, _ => Except.error e
      | _, Except.error e => Except.error e
    else Except.ok output_i
  match step1 with
  | Except.error e => Except.error e
  | Except.ok st =>
    match getKey st.attn_embs "attn_embs",
          getKey st.attn_emb_lens "attn_emb_lens" with
    | Except.ok a, Except.ok l =>
      let start_word := startColumn start_idx B
      let wordE : Except String Mat :=
        if t = 0 then Except.ok start_word
        else
          match getKey st.seqs "seqs" with
          | Except.ok s => Except.ok (catCols start_word s)
          | Except.error e => Except.error e
      match wordE with
      | Except.error e => Except.error e
      | Except.ok word =>
        Except.ok
          ({ word := word
             attn_embs := a
             attn_emb_lens := l
             caps_padding_mask := eqMask pad_idx word }, st)
    | Except.error e, _ => Except.error e
    | _, Except.error e => Except.error e

/-! ## M2TransformerModel (alternative variant) -/

/-- `M2TransformerModel.seq_forward`: same truncation of the captions, but
the record carries `attn_emb_mask` and no padding mask is computed. -/
def M2TransformerModel.seq_forward
    (decoder : M2DecoderInput α → γ) (input : SeqForwardInput α) : γ :=
  decoder
    { word := dropLastCol input.caps
      attn_embs := input.attn_embs
      attn_emb_mask := input.attn_emb_mask }

/-- `M2TransformerModel.prepare_decoder_input`: identical word-selection
logic to the primary variant, `attn_emb_mask` instead of lengths, no
padding mask. -/
def M2TransformerModel.prepare_decoder_input (start_idx : Int)
    (input : StepInput α) (output : RunningOutput) (r : Rat) :
    M2DecoderInput α :=
  let t := input.t
  let word : Mat :=
    if input.mode = "train" ∧ r < input.ss_prob then
      takeCols (t + 1) input.caps
    else
      let start_word := startColumn start_idx input.attn_embs.length
      if t = 0 then start_word
      else catCols start_word (takeCols t output.seqs)
  { word := word
    attn_embs := input.attn_embs
    attn_emb_mask := input.attn_emb_mask }

/-- `M2TransformerModel.prepare_beamsearch_decoder_input`: like the primary
variant but caching `attn_emb_mask` and emitting no padding mask. -/
def M2TransformerModel.prepare_beamsearch_decoder_input (start_idx : Int)
    (input : BeamStepInput α) (output_i : BeamState α) :
    Except String (M2DecoderInput α × BeamState α) :=
  let t := input.t
  let B := input.beam_size
  let step1 : Except String (BeamState α) :=
    if t = 0 then
      match getIdx input.attn_embs input.sample_idx,
            getIdx input.attn_emb_mask input.sample_idx with
      | Except.ok a, Except.ok m =>
        Except.ok { output_i with
                    attn_embs := some (repeat_tensor a B)
                    attn_emb_mask := some (repeat_tensor m B) }
      | Except.error e, _ => Except.error e
      | _, Except.error e => Except.error e
    else Except.ok output_i
  match step1 with
  | Except.error e => Except.error e
  | Except.ok st =>
    match getKey st.attn_embs "attn_embs",
          getKey st.attn_emb_mask "attn_emb_mask" with
    | Except.ok a, Except.ok m =>
      let start_word := startColumn start_idx B
      let wordE : Except String Mat :=
        if t = 0 then Except.ok start_word
        else
          match getKey st.seqs "seqs" with
          | Except.ok s => Except.ok (catCols start_word s)
          | Except.error e => Except.error e
      match wordE with
      | Except.error e => Except.error e
      | Except.ok word =>
        Except.ok
          ({ word := word
             attn_embs := a
             attn_emb_mask := m }, st)
    | Except.error e, _ => Except.error e
    | _, Except.error e => Except.error e

/-! ## EventEncoder and the event-conditioned variant -/

/-- `[N, V] @ [V, E]` rational matrix multiplication: row `j` of the result
is the weighted combination of the rows of `b` with coefficients `a[j]`. -/
def matMul (a b : List (List Rat)) : List (List Rat) :=
  a.map (fun row =>
    (List.zipWith (fun c v => v.map (fun x => c * x)) row b).foldl
      (List.zipWith (fun x y => x + y))
      (List.replicate (b.headD []).length 0))

/-- `EventEncoder`: holds the learned `label_embedding` table of shape
[vocab_size, emb_dim]. -/
structure EventEncoder where
  label_embedding : List (List Rat)
deriving DecidableEq, Repr

/-- `EventEncoder.forward`: divides each label row by its own sum
(`word_idxs / word_idxs.sum(dim=1, keepdim=True)`) — with no guard on the
sum — and multiplies the result with the embedding table. -/
def EventEncoder.forward (enc : EventEncoder)
    (word_idxs : List (List Rat)) : List (List Rat) :=
  let indices := word_idxs.map (fun row => row.map (fun x => x / row.sum))
  matMul indices enc.label_embedding

/-- `EventCondTransformerModel.prepare_decoder_input`: the primary
variant's record plus `events := label_encoder(input_dict["events"])`. -/
def EventCondTransformerModel.prepare_decoder_input (start_idx pad_idx : Int)
    (label_encoder : EventEncoder) (input : StepInput α)
    (events : List (List Rat)) (output : RunningOutput) (r : Rat) :
    EventDecoderInput α :=
  let base := TransformerModel.prepare_decoder_input start_idx pad_idx input output r
  { word := base.word
    attn_embs := base.attn_embs
    attn_emb_lens := base.attn_emb_lens
    caps_padding_mask := base.caps_padding_mask
    events := EventEncoder.forward label_encoder events }

/-- `EventCondTransformerModel.prepare_beamsearch_decoder_input`: the
primary variant's assembly, then at t=0 the sample's encoded event vector
is replicated to beam width and stored under "events"; at every t the
cached "events" entry is read back into the record. -/
def EventCondTransformerModel.prepare_beamsearch_decoder_input
    (start_idx pad_idx : Int) (label_encoder : EventEncoder)
    (input : BeamStepInput α) (events : List (List Rat))
    (output_i : BeamState α) :
    Except String (EventDecoderInput α × BeamState α) :=
  match TransformerModel.prepare_beamsearch_decoder_input start_idx pad_idx
      input output_i with
  | Except.error e => Except.error e
  | Except.ok (base, st) =>
    let step2 : Except String (BeamState α) :=
      if input.t = 0 then
        match getIdx (EventEncoder.forward label_encoder events)
            input.sample_idx with
        | Except.ok ev =>
          Except.ok { st with events := some (repeat_tensor ev input.beam_size) }
        | Except.error e => Except.error e
      else Except.ok st
    match step2 with
    | Except.error e => Except.error e
    | Except.ok st' =>
      match getKey st'.events "events" with
      | Except.ok ev =>
        Except.ok
          ({ word := base.word
             attn_embs := base.attn_embs
             attn_emb_lens := base.attn_emb_lens
             caps_padding_mask := base.caps_padding_mask
             events := ev }, st')
      | Except.error e => Except.error e

/-! ## KeywordCondTransformerModel (keyword-conditioned variant) -/

/-- `KeywordCondTransformerModel.seq_forward`: the primary variant's
truncation and mask plus the "keywords" tensor passed through unchanged. -/
def KeywordCondTransformerModel.seq_forward (pad_idx : Int)
    (decoder : KWDecoderInput α → γ) (input : SeqForwardInput α) : γ :=
  let caps := input.caps
  let caps_padding_mask := dropLastCol (eqMask pad_idx caps)
  decoder
    { word := dropLastCol caps
      attn_embs := input.attn_embs
      attn_emb_lens := input.attn_emb_lens
      caps_padding_mask := caps_padding_mask
      keywords := input.keywords }

/-- `KeywordCondTransformerModel.prepare_decoder_input`: the primary
variant's record plus `keywords := input_dict["keywords"]`. -/
def KeywordCondTransformerModel.prepare_decoder_input (start_idx pad_idx : Int)
    (input : StepInput α) (keywords : List α) (output : RunningOutput)
    (r : Rat) : KWDecoderInput α :=
  let base := TransformerModel.prepare_decoder_input start_idx pad_idx input output r
  { word := base.word
    attn_embs := base.attn_embs
    attn_emb_lens := base.attn_emb_lens
    caps_padding_mask := base.caps_padding_mask
    keywords := keywords }

/-- `KeywordCondTransformerModel.prepare_beamsearch_decoder_input`: the
primary variant's assembly, then at t=0 `keywords[i]` is replicated to
beam width and stored under "keywords"; at every t the cached entry is
read back into the record. -/
def KeywordCondTransformerModel.prepare_beamsearch_decoder_input
    (start_idx pad_idx : Int) (input : BeamStepInput α) (keywords : List α)
    (output_i : BeamState α) :
    Except String (KWDecoderInput α × BeamState α) :=
  match TransformerModel.prepare_beamsearch_decoder_input start_idx pad_idx
      input output_i with
  | Except.error e => Except.error e
  | Except.ok (base, st) =>
    let step2 : Except String (BeamState α) :=
      if input.t = 0 then
        match getIdx keywords input.sample_idx with
        | Except.ok kw =>
          Except.ok { st with keywords := some (repeat_tensor kw input.beam_size) }
        | Except.error e => Except.error e
      else Except.ok st
    match step2 with
    | Except.error e => Except.error e
    | Except.ok st' =>
      match getKey st'.keywords "keywords" with
      | Except.ok kw =>
        Except.ok
          ({ word := base.word
             attn_embs := base.attn_embs
             attn_emb_lens := base.attn_emb_lens
             caps_padding_mask := base.caps_padding_mask
             keywords := kw }, st')
      | Except.error e => Except.error e

/-! ## Class-level construction: compatible_decoders and encoder check -/

/-- The decoder classes referenced by the four variants. -/
inductive DecoderClass
  | TransformerDecoder
  | M2TransformerDecoder
  | EventTransformerDecoder
  | KeywordProbTransformerDecoder
deriving DecidableEq, Repr

/-- The encoder classes relevant to `check_encoder_compatibility`. -/
inductive EncoderClass
  | M2TransformerEncoder
  | OtherEncoder
deriving DecidableEq, Repr

/-- A Python value that is either a single class or a tuple of classes —
the two shapes `compatible_decoders` can take.  `(C,)` is a one-element
tuple; `(C)` is just the class `C`. -/
inductive PyClassVal
  | cls (c : DecoderClass)
  | tuple (cs : List DecoderClass)
deriving DecidableEq, Repr

/-- Whether a `PyClassVal` is a tuple. -/
def PyClassVal.isTuple : PyClassVal → Bool
  | PyClassVal.cls _ => false
  | PyClassVal.tuple _ => true

/-- `self.compatible_decoders = v` guarded by
`if not hasattr(self, "compatible_decoders")`: keeps an already-set
attribute. -/
def setIfAbsent (cur : Option PyClassVal) (v : PyClassVal) : Option PyClassVal :=
  match cur with
  | some x => some x
  | none => some v

/-- The `compatible_decoders` assignment made by `TransformerModel.__init__`
(the literal has a trailing comma: a one-element tuple). -/
def TransformerModel.initCompat (cur : Option PyClassVal) : Option PyClassVal :=
  setIfAbsent cur (PyClassVal.tuple [DecoderClass.TransformerDecoder])

/-- The `compatible_decoders` assignment made by
`M2TransformerModel.__init__` (the literal has NO trailing comma:
a parenthesised class, not a tuple). -/
def M2TransformerModel.initCompat (cur : Option PyClassVal) : Option PyClassVal :=
  setIfAbsent cur (PyClassVal.cls DecoderClass.M2TransformerDecoder)

/-- `EventCondTransformerModel.__init__`: sets its own (no trailing comma —
a bare class), then runs the parent `TransformerModel.__init__` guard,
which sees the attribute already present. -/
def EventCondTransformerModel.initCompat (cur : Option PyClassVal) :
    Option PyClassVal :=
  TransformerModel.initCompat
    (setIfAbsent cur (PyClassVal.cls DecoderClass.EventTransformerDecoder))

/-- `KeywordCondTransformerModel.__init__`: sets its own one-element tuple
(trailing comma present), then runs the parent guard. -/
def KeywordCondTransformerModel.initCompat (cur : Option PyClassVal) :
    Option PyClassVal :=
  TransformerModel.initCompat
    (setIfAbsent cur
      (PyClassVal.tuple [DecoderClass.KeywordProbTransformerDecoder]))

/-- Python `isinstance(d, classinfo)` where `classinfo` is a class or a
tuple of classes. -/
def isinstanceDecoder (d : DecoderClass) : PyClassVal → Bool
  | PyClassVal.cls c => d == c
  | PyClassVal.tuple cs => cs.contains d

/-- Modelled from the spec: `CaptionModel.__init__`
(captioning/models/base_model.py, not under src/) checks the decoder
against the declared `compatible_decoders` ("a model variant's decoder
must belong to its declared compatible-decoder tuple; violated composition
is a construction-time error"). -/
def CaptionModel.init (compat : PyClassVal) (dec : DecoderClass) :
    Except String Unit :=
  if isinstanceDecoder dec compat then Except.ok ()
  else Except.error "ConfigurationError: incompatible decoder"

/-- `M2TransformerModel.check_encoder_compatibility`: asserts the encoder
is an `M2TransformerEncoder`; the failed assertion is a construction-time
configuration error. -/
def M2TransformerModel.check_encoder_compatibility (enc : EncoderClass) :
    Except String Unit :=
  if enc = EncoderClass.M2TransformerEncoder then Except.ok ()
  else Except.error "ConfigurationError: encoder incompatible with M2TransformerModel"

/-- `M2TransformerModel.__init__`: sets `compatible_decoders`, runs the
base constructor's decoder check, then `check_encoder_compatibility` —
all before any forward/step method can run. -/
def M2TransformerModel.init (enc : EncoderClass) (dec : DecoderClass) :
    Except String Unit :=
  match CaptionModel.init
      ((M2TransformerModel.initCompat none).getD
        (PyClassVal.tuple [])) dec with
  | Except.error e => Except.error e
  | Except.ok _ => M2TransformerModel.check_encoder_compatibility enc

/-! ## Characterisation lemmas for the beam-search assembly -/

theorem TM_beam_t0 (start_idx pad_idx : Int) (input : BeamStepInput α)
    (st : BeamState α) (a l : α)
    (ht : input.t = 0)
    (ha : input.attn_embs[input.sample_idx]? = some a)
    (hl : input.attn_emb_lens[input.sample_idx]? = some l) :
    TransformerModel.prepare_beamsearch_decoder_input start_idx pad_idx input st =
      Except.ok
        ({ word := startColumn start_idx input.beam_size
           attn_embs := repeat_tensor a input.beam_size
           attn_emb_lens := repeat_tensor l input.beam_size
           caps_padding_mask :=
             eqMask pad_idx (startColumn start_idx input.beam_size) },
         { st with
           attn_embs := some (repeat_tensor a input.beam_size)
           attn_emb_lens := some (repeat_tensor l input.beam_size) }) := by
  simp [TransformerModel.prepare_beamsearch_decoder_input, ht, getIdx, getKey,
    ha, hl]

theorem TM_beam_tpos (start_idx pad_idx : Int) (input : BeamStepInput α)
    (st : BeamState α) (a l : List α) (s : Mat)
    (ht : input.t ≠ 0)
    (ha : st.attn_embs = some a)
    (hl : st.attn_emb_lens = some l)
    (hs : st.seqs = some s) :
    TransformerModel.prepare_beamsearch_decoder_input start_idx pad_idx input st =
      Except.ok
        ({ word := catCols (startColumn start_idx input.beam_size) s
           attn_embs := a
           attn_emb_lens := l
           caps_padding_mask :=
             eqMask pad_idx (catCols (startColumn start_idx input.beam_size) s) },
         st) := by
  simp [TransformerModel.prepare_beamsearch_decoder_input, ht, getKey,
    ha, hl, hs]

theorem TM_beam_tpos_missing (start_idx pad_idx : Int)
    (input : BeamStepInput α) (st : BeamState α)
    (ht : input.t ≠ 0)
    (hmiss : st.attn_embs = none ∨ st.attn_emb_lens = none ∨ st.seqs = none) :
    ∃ e, TransformerModel.prepare_beamsearch_decoder_input start_idx pad_idx
        input st = Except.error e := by
  rcases hmiss with h | h | h
  · exact ⟨"KeyError: attn_embs", by
      simp [TransformerModel.prepare_beamsearch_decoder_input, ht, getKey, h]⟩
  · cases hae : st.attn_embs with
    | none => exact ⟨"KeyError: attn_embs", by
        simp [TransformerModel.prepare_beamsearch_decoder_input, ht, getKey, hae]⟩
    | some a => exact ⟨"KeyError: attn_emb_lens", by
        simp [TransformerModel.prepare_beamsearch_decoder_input, ht, getKey, hae, h]⟩
  · cases hae : st.attn_embs with
    | none => exact ⟨"KeyError: attn_embs", by
        simp [TransformerModel.prepare_beamsearch_decoder_input, ht, getKey, hae]⟩
    | some a =>
      cases hal : st.attn_emb_lens with
      | none => exact ⟨"KeyError: attn_emb_lens", by
          simp [TransformerModel.prepare_beamsearch_decoder_input, ht, getKey, hae, hal]⟩
      | some l => exact ⟨"KeyError: seqs", by
          simp [TransformerModel.prepare_beamsearch_decoder_input, ht, getKey, hae, hal, h]⟩

theorem M2_beam_t0 (start_idx : Int) (input : BeamStepInput α)
    (st : BeamState α) (a m : α)
    (ht : input.t = 0)
    (ha : input.attn_embs[input.sample_idx]? = some a)
    (hm : input.attn_emb_mask[input.sample_idx]? = some m) :
    M2TransformerModel.prepare_beamsearch_decoder_input start_idx input st =
      Except.ok
        ({ word := startColumn start_idx input.beam_size
           attn_embs := repeat_tensor a input.beam_size
           attn_emb_mask := repeat_tensor m input.beam_size },
         { st with
           attn_embs := some (repeat_tensor a input.beam_size)
           attn_emb_mask := some (repeat_tensor m input.beam_size) }) := by
  simp [M2TransformerModel.prepare_beamsearch_decoder_input, ht, getIdx, getKey,
    ha, hm]

theorem M2_beam_tpos (start_idx : Int) (input : BeamStepInput α)
    (st : BeamState α) (a m : List α) (s : Mat)
    (ht : input.t ≠ 0)
    (ha : st.attn_embs = some a)
    (hm : st.attn_emb_mask = some m)
    (hs : st.seqs = some s) :
    M2TransformerModel.prepare_beamsearch_decoder_input start_idx input st =
      Except.ok
        ({ word := catCols (startColumn start_idx input.beam_size) s
           attn_embs := a
           attn_emb_mask := m },
         st) := by
  simp [M2TransformerModel.prepare_beamsearch_decoder_input, ht, getKey,
    ha, hm, hs]

theorem M2_beam_tpos_missing (start_idx : Int)
    (input : BeamStepInput α) (st : BeamState α)
    (ht : input.t ≠ 0)
    (hmiss : st.attn_embs = none ∨ st.attn_emb_mask = none ∨ st.seqs = none) :
    ∃ e, M2TransformerModel.prepare_beamsearch_decoder_input start_idx
        input st = Except.error e := by
  rcases hmiss with h | h | h
  · exact ⟨"KeyError: attn_embs", by
      simp [M2TransformerModel.prepare_beamsearch_decoder_input, ht, getKey, h]⟩
  · cases hae : st.attn_embs with
    | none => exact ⟨"KeyError: attn_embs", by
        simp [M2TransformerModel.prepare_beamsearch_decoder_input, ht, getKey, hae]⟩
    | some a => exact ⟨"KeyError: attn_emb_mask", by
        simp [M2TransformerModel.prepare_beamsearch_decoder_input, ht, getKey, hae, h]⟩
  · cases hae : st.attn_embs with
    | none => exact ⟨"KeyError: attn_embs", by
        simp [M2TransformerModel.prepare_beamsearch_decoder_input, ht, getKey, hae]⟩
    | some a =>
      cases ham : st.attn_emb_mask with
      | none => exact ⟨"KeyError: attn_emb_mask", by
          simp [M2TransformerModel.prepare_beamsearch_decoder_input, ht, getKey, hae, ham]⟩
      | some m => exact ⟨"KeyError: seqs", by
          simp [M2TransformerModel.prepare_beamsearch_decoder_input, ht, getKey, hae, ham, h]⟩

theorem Event_beam_t0 (start_idx pad_idx : Int) (enc : EventEncoder)
    (input : BeamStepInput α) (events : List (List Rat))
    (st : BeamState α) (a l : α) (ev : List Rat)
    (ht : input.t = 0)
    (ha : input.attn_embs[input.sample_idx]? = some a)
    (hl : input.attn_emb_lens[input.sample_idx]? = some l)
    (hev : (EventEncoder.forward enc events)[input.sample_idx]? = some ev) :
    EventCondTransformerModel.prepare_beamsearch_decoder_input start_idx pad_idx
        enc input events st =
      Except.ok
        ({ word := startColumn start_idx input.beam_size
           attn_embs := repeat_tensor a input.beam_size
           attn_emb_lens := repeat_tensor l input.beam_size
           caps_padding_mask :=
             eqMask pad_idx (startColumn start_idx input.beam_size)
           events := repeat_tensor ev input.beam_size },
         { st with
           attn_embs := some (repeat_tensor a input.beam_size)
           attn_emb_lens := some (repeat_tensor l input.beam_size)
           events := some (repeat_tensor ev input.beam_size) }) := by
  rw [EventCondTransformerModel.prepare_beamsearch_decoder_input,
    TM_beam_t0 start_idx pad_idx input st a l ht ha hl]
  simp [ht, getIdx, getKey, hev]

theorem Event_beam_tpos (start_idx pad_idx : Int) (enc : EventEncoder)
    (input : BeamStepInput α) (events : List (List Rat))
    (st : BeamState α) (a l : List α) (s : Mat) (ev : List (List Rat))
    (ht : input.t ≠ 0)
    (ha : st.attn_embs = some a)
    (hl : st.attn_emb_lens = some l)
    (hs : st.seqs = some s)
    (hev : st.events = some ev) :
    EventCondTransformerModel.prepare_beamsearch_decoder_input start_idx pad_idx
        enc input events st =
      Except.ok
        ({ word := catCols (startColumn start_idx input.beam_size) s
           attn_embs := a
           attn_emb_lens := l
           caps_padding_mask :=
             eqMask pad_idx (catCols (startColumn start_idx input.beam_size) s)
           events := ev },
         st) := by
  rw [EventCondTransformerModel.prepare_beamsearch_decoder_input,
    TM_beam_tpos start_idx pad_idx input st a l s ht ha hl hs]
  simp [ht, getKey, hev]

theorem KW_beam_t0 (start_idx pad_idx : Int)
    (input : BeamStepInput α) (keywords : List α)
    (st : BeamState α) (a l kw : α)
    (ht : input.t = 0)
    (ha : input.attn_embs[input.sample_idx]? = some a)
    (hl : input.attn_emb_lens[input.sample_idx]? = some l)
    (hkw : keywords[input.sample_idx]? = some kw) :
    KeywordCondTransformerModel.prepare_beamsearch_decoder_input start_idx
        pad_idx input keywords st =
      Except.ok
        ({ word := startColumn start_idx input.beam_size
           attn_embs := repeat_tensor a input.beam_size
           attn_emb_lens := repeat_tensor l input.beam_size
           caps_padding_mask :=
             eqMask pad_idx (startColumn start_idx input.beam_size)
           keywords := repeat_tensor kw input.beam_size },
         { st with
           attn_embs := some (repeat_tensor a input.beam_size)
           attn_emb_lens := some (repeat_tensor l input.beam_size)
           keywords := some (repeat_tensor kw input.beam_size) }) := by
  rw [KeywordCondTransformerModel.prepare_beamsearch_decoder_input,
    TM_beam_t0 start_idx pad_idx input st a l ht ha hl]
  simp [ht, getIdx, getKey, hkw]

theorem KW_beam_tpos (start_idx pad_idx : Int)
    (input : BeamStepInput α) (keywords : List α)
    (st : BeamState α) (a l : List α) (s : Mat) (kw : List α)
    (ht : input.t ≠ 0)
    (ha : st.attn_embs = some a)
    (hl : st.attn_emb_lens = some l)
    (hs : st.seqs = some s)
    (hkw : st.keywords = some kw) :
    KeywordCondTransformerModel.prepare_beamsearch_decoder_input start_idx
        pad_idx input keywords st =
      Except.ok
        ({ word := catCols (startColumn start_idx input.beam_size) s
           attn_embs := a
           attn_emb_lens := l
           caps_padding_mask :=
             eqMask pad_idx (catCols (startColumn start_idx input.beam_size) s)
           keywords := kw },
         st) := by
  rw [KeywordCondTransformerModel.prepare_beamsearch_decoder_input,
    TM_beam_tpos start_idx pad_idx input st a l s ht ha hl hs]
  simp [ht, getKey, hkw]

/-! ## Small list lemmas -/

theorem takeCols_of_rows_length (t : Nat) (s : Mat)
    (h : ∀ row ∈ s, row.length = t) : takeCols t s = s := by
  induction s with
  | nil => rfl
  | cons r rs ih =>
    have hr : r.take t = r :=
      List.take_of_length_le (le_of_eq (h r (List.mem_cons_self r rs)))
    have hrs := ih (fun row hm => h row (List.mem_cons_of_mem r hm))
    simp only [takeCols, List.map_cons, hr, List.cons.injEq, true_and]
    simpa [takeCols] using hrs

theorem catCols_takeZero (a s : Mat) (h : s.length = a.length) :
    catCols a (takeCols 0 s) = a := by
  induction a generalizing s with
  | nil => simp [catCols]
  | cons x xs ih =>
    cases s with
    | nil => exact absurd h (by simp)
    | cons y ys =>
      simp only [catCols, takeCols, List.map_cons, List.take_zero,
        List.zipWith_cons_cons, List.append_nil, List.cons.injEq, true_and]
      have := ih ys (by simpa using h)
      simpa [catCols, takeCols] using this

/-- C1: at t=0 the beam-search word tensor is exactly the start token
broadcast to shape [B,1]; at t>0 it equals the start-token column
concatenated with the first t previously generated tokens per beam
(`beam_output.seqs[:, :t]`, the driver-maintained `seqs` holding exactly t
tokens per beam at step t) — for both the primary and the alternative
variant. -/
theorem beamsearch_word_start_then_generated {α : Type} (start_idx pad_idx : Int) :
    (∀ (input : BeamStepInput α) (st : BeamState α) (a l : α),
      input.t = 0 →
      input.attn_embs[input.sample_idx]? = some a →
      input.attn_emb_lens[input.sample_idx]? = some l →
      ∃ di st',
        TransformerModel.prepare_beamsearch_decoder_input start_idx pad_idx
            input st = Except.ok (di, st') ∧
        di.word = startColumn start_idx input.beam_size) ∧
    (∀ (input : BeamStepInput α) (st : BeamState α) (a l : List α) (s : Mat),
      input.t ≠ 0 →
      st.attn_embs = some a → st.attn_emb_lens = some l → st.seqs = some s →
      (∀ row ∈ s, row.length = input.t) →
      ∃ di st',
        TransformerModel.prepare_beamsearch_decoder_input start_idx pad_idx
            input st = Except.ok (di, st') ∧
        di.word = catCols (startColumn start_idx input.beam_size)
          (takeCols input.t s)) ∧
    (∀ (input : BeamStepInput α) (st : BeamState α) (a m : α),
      input.t = 0 →
      input.attn_embs[input.sample_idx]? = some a →
      input.attn_emb_mask[input.sample_idx]? = some m →
      ∃ di st',
        M2TransformerModel.prepare_beamsearch_decoder_input start_idx
            input st = Except.ok (di, st') ∧
        di.word = startColumn start_idx input.beam_size) ∧
    (∀ (input : BeamStepInput α) (st : BeamState α) (a m : List α) (s : Mat),
      input.t ≠ 0 →
      st.attn_embs = some a → st.attn_emb_mask = some m → st.seqs = some s →
      (∀ row ∈ s, row.length = input.t) →
      ∃ di st',
        M2TransformerModel.prepare_beamsearch_decoder_input start_idx
            input st = Except.ok (di, st') ∧
        di.word = catCols (startColumn start_idx input.beam_size)
          (takeCols input.t s)) := by
  refine ⟨?_, ?_, ?_, ?_⟩
  · intro input st a l ht ha hl
    exact ⟨_, _, TM_beam_t0 start_idx pad_idx input st a l ht ha hl, rfl⟩
  · intro input st a l s ht ha hl hs hrow
    refine ⟨_, _, TM_beam_tpos start_idx pad_idx input st a l s ht ha hl hs, ?_⟩
    rw [takeCols_of_rows_length input.t s hrow]
  · intro input st a m ht ha hm
    exact ⟨_, _, M2_beam_t0 start_idx input st a m ht ha hm, rfl⟩
  · intro input st a m s ht ha hm hs hrow
    refine ⟨_, _, M2_beam_tpos start_idx input st a m s ht ha hm hs, ?_⟩
    rw [takeCols_of_rows_length input.t s hrow]

/-- C1 witness: the four cases of the theorem instantiated at concrete
inputs (beam width 2, start id 1, pad id 0). -/
theorem beamsearch_word_start_then_generated_witness :
    (∃ di st',
      TransformerModel.prepare_beamsearch_decoder_input 1 0
          (⟨[10], [3], [7], 0, 0, 2⟩ : BeamStepInput Nat) BeamState.empty
        = Except.ok (di, st') ∧ di.word = startColumn 1 2) ∧
    (∃ di st',
      TransformerModel.prepare_beamsearch_decoder_input 1 0
          (⟨[10], [3], [7], 1, 0, 2⟩ : BeamStepInput Nat)
          ⟨some [10, 10], some [3, 3], none, some [[5], [6]], none, none⟩
        = Except.ok (di, st') ∧
      di.word = catCols (startColumn 1 2) (takeCols 1 [[5], [6]])) ∧
    (∃ di st',
      M2TransformerModel.prepare_beamsearch_decoder_input 1
          (⟨[10], [3], [7], 0, 0, 2⟩ : BeamStepInput Nat) BeamState.empty
        = Except.ok (di, st') ∧ di.word = startColumn 1 2) ∧
    (∃ di st',
      M2TransformerModel.prepare_beamsearch_decoder_input 1
          (⟨[10], [3], [7], 1, 0, 2⟩ : BeamStepInput Nat)
          ⟨some [10, 10], none, some [7, 7], some [[5], [6]], none, none⟩
        = Except.ok (di, st') ∧
      di.word = catCols (startColumn 1 2) (takeCols 1 [[5], [6]])) :=
  ⟨(beamsearch_word_start_then_generated 1 0).1 _ BeamState.empty 10 3
      rfl rfl rfl,
   (beamsearch_word_start_then_generated 1 0).2.1 _ _ [10, 10] [3, 3]
      [[5], [6]] (by decide) rfl rfl rfl (by decide),
   (beamsearch_word_start_then_generated 1 0).2.2.1 _ BeamState.empty 10 7
      rfl rfl rfl,
   (beamsearch_word_start_then_generated 1 0).2.2.2 _ _ [10, 10] [7, 7]
      [[5], [6]] (by decide) rfl rfl rfl (by decide)⟩

/-- C2: every variant replicates the per-sample tensors across the beam
dimension and stores them into the beam state only at t=0 (all other state
fields untouched); at t>0 the cached tensors are read back into the record
unchanged and the beam state is returned exactly as it was (no cached
field is rewritten). -/
theorem beamsearch_cache_only_at_t0 {α : Type} (start_idx pad_idx : Int) :
    (∀ (input : BeamStepInput α) (st : BeamState α) (a l : α),
      input.t = 0 →
      input.attn_embs[input.sample_idx]? = some a →
      input.attn_emb_lens[input.sample_idx]? = some l →
      ∃ di st',
        TransformerModel.prepare_beamsearch_decoder_input start_idx pad_idx
            input st = Except.ok (di, st') ∧
        st' = { st with
                attn_embs := some (repeat_tensor a input.beam_size)
                attn_emb_lens := some (repeat_tensor l input.beam_size) } ∧
        di.attn_embs = repeat_tensor a input.beam_size ∧
        di.attn_emb_lens = repeat_tensor l input.beam_size) ∧
    (∀ (input : BeamStepInput α) (st : BeamState α) (a l : List α) (s : Mat),
      input.t ≠ 0 →
      st.attn_embs = some a → st.attn_emb_lens = some l → st.seqs = some s →
      ∃ di,
        TransformerModel.prepare_beamsearch_decoder_input start_idx pad_idx
            input st = Except.ok (di, st) ∧
        di.attn_embs = a ∧ di.attn_emb_lens = l) ∧
    (∀ (input : BeamStepInput α) (st : BeamState α) (a m : α),
      input.t = 0 →
      input.attn_embs[input.sample_idx]? = some a →
      input.attn_emb_mask[input.sample_idx]? = some m →
      ∃ di st',
        M2TransformerModel.prepare_beamsearch_decoder_input start_idx
            input st = Except.ok (di, st') ∧
        st' = { st with
                attn_embs := some (repeat_tensor a input.beam_size)
                attn_emb_mask := some (repeat_tensor m input.beam_size) } ∧
        di.attn_embs = repeat_tensor a input.beam_size ∧
        di.attn_emb_mask = repeat_tensor m input.beam_size) ∧
    (∀ (input : BeamStepInput α) (st : BeamState α) (a m : List α) (s : Mat),
      input.t ≠ 0 →
      st.attn_embs = some a → st.attn_emb_mask = some m → st.seqs = some s →
      ∃ di,
        M2TransformerModel.prepare_beamsearch_decoder_input start_idx
            input st = Except.ok (di, st) ∧
        di.attn_embs = a ∧ di.attn_emb_mask = m) ∧
    (∀ (enc : EventEncoder) (input : BeamStepInput α) (events : List (List Rat))
        (st : BeamState α) (a l : α) (ev : List Rat),
      input.t = 0 →
      input.attn_embs[input.sample_idx]? = some a →
      input.attn_emb_lens[input.sample_idx]? = some l →
      (EventEncoder.forward enc events)[input.sample_idx]? = some ev →
      ∃ di st',
        EventCondTransformerModel.prepare_beamsearch_decoder_input start_idx
            pad_idx enc input events st = Except.ok (di, st') ∧
        st' = { st with
                attn_embs := some (repeat_tensor a input.beam_size)
                attn_emb_lens := some (repeat_tensor l input.beam_size)
                events := some (repeat_tensor ev input.beam_size) } ∧
        di.events = repeat_tensor ev input.beam_size) ∧
    (∀ (enc : EventEncoder) (input : BeamStepInput α) (events : List (List Rat))
        (st : BeamState α) (a l : List α) (s : Mat) (ev : List (List Rat)),
      input.t ≠ 0 →
      st.attn_embs = some a → st.attn_emb_lens = some l → st.seqs = some s →
      st.events = some ev →
      ∃ di,
        EventCondTransformerModel.prepare_beamsearch_decoder_input start_idx
            pad_idx enc input events st = Except.ok (di, st) ∧
        di.events = ev) ∧
    (∀ (input : BeamStepInput α) (keywords : List α) (st : BeamState α)
        (a l kw : α),
      input.t = 0 →
      input.attn_embs[input.sample_idx]? = some a →
      input.attn_emb_lens[input.sample_idx]? = some l →
      keywords[input.sample_idx]? = some kw →
      ∃ di st',
        KeywordCondTransformerModel.prepare_beamsearch_decoder_input start_idx
            pad_idx input keywords st = Except.ok (di, st') ∧
        st' = { st with
                attn_embs := some (repeat_tensor a input.beam_size)
                attn_emb_lens := some (repeat_tensor l input.beam_size)
                keywords := some (repeat_tensor kw input.beam_size) } ∧
        di.keywords = repeat_tensor kw input.beam_size) ∧
    (∀ (input : BeamStepInput α) (keywords : List α) (st : BeamState α)
        (a l : List α) (s : Mat) (kw : List α),
      input.t ≠ 0 →
      st.attn_embs = some a → st.attn_emb_lens = some l → st.seqs = some s →
      st.keywords = some kw →
      ∃ di,
        KeywordCondTransformerModel.prepare_beamsearch_decoder_input start_idx
            pad_idx input keywords st = Except.ok (di, st) ∧
        di.keywords = kw) := by
  refine ⟨?_, ?_, ?_, ?_, ?_, ?_, ?_, ?_⟩
  · intro input st a l ht ha hl
    exact ⟨_, _, TM_beam_t0 start_idx pad_idx input st a l ht ha hl,
      rfl, rfl, rfl⟩
  · intro input st a l s ht ha hl hs
    exact ⟨_, TM_beam_tpos start_idx pad_idx input st a l s ht ha hl hs,
      rfl, rfl⟩
  · intro input st a m ht ha hm
    exact ⟨_, _, M2_beam_t0 start_idx input st a m ht ha hm, rfl, rfl, rfl⟩
  · intro input st a m s ht ha hm hs
    exact ⟨_, M2_beam_tpos start_idx input st a m s ht ha hm hs, rfl, rfl⟩
  · intro enc input events st a l ev ht ha hl hev
    exact ⟨_, _,
      Event_beam_t0 start_idx pad_idx enc input events st a l ev ht ha hl hev,
      rfl, rfl⟩
  · intro enc input events st a l s ev ht ha hl hs hev
    exact ⟨_,
      Event_beam_tpos start_idx pad_idx enc input events st a l s ev ht ha hl
        hs hev, rfl⟩
  · intro input keywords st a l kw ht ha hl hkw
    exact ⟨_, _,
      KW_beam_t0 start_idx pad_idx input keywords st a l kw ht ha hl hkw,
      rfl, rfl⟩
  · intro input keywords st a l s kw ht ha hl hs hkw
    exact ⟨_,
      KW_beam_tpos start_idx pad_idx input keywords st a l s kw ht ha hl hs
        hkw, rfl⟩

/-- C2 witness: all eight cases of the caching theorem instantiated at
concrete inputs. -/
theorem beamsearch_cache_only_at_t0_witness :
    (∃ di st',
      TransformerModel.prepare_beamsearch_decoder_input 1 0
          (⟨[10], [3], [7], 0, 0, 2⟩ : BeamStepInput Nat) BeamState.empty
        = Except.ok (di, st') ∧
      st' = { (BeamState.empty : BeamState Nat) with
              attn_embs := some (repeat_tensor 10 2)
              attn_emb_lens := some (repeat_tensor 3 2) } ∧
      di.attn_embs = repeat_tensor 10 2 ∧
      di.attn_emb_lens = repeat_tensor 3 2) ∧
    (∃ di,
      TransformerModel.prepare_beamsearch_decoder_input 1 0
          (⟨[10], [3], [7], 1, 0, 2⟩ : BeamStepInput Nat)
          ⟨some [10, 10], some [3, 3], none, some [[5], [6]], none, none⟩
        = Except.ok
            (di, ⟨some [10, 10], some [3, 3], none, some [[5], [6]], none, none⟩) ∧
      di.attn_embs = [10, 10] ∧ di.attn_emb_lens = [3, 3]) ∧
    (∃ di st',
      M2TransformerModel.prepare_beamsearch_decoder_input 1
          (⟨[10], [3], [7], 0, 0, 2⟩ : BeamStepInput Nat) BeamState.empty
        = Except.ok (di, st') ∧
      st' = { (BeamState.empty : BeamState Nat) with
              attn_embs := some (repeat_tensor 10 2)
              attn_emb_mask := some (repeat_tensor 7 2) } ∧
      di.attn_embs = repeat_tensor 10 2 ∧
      di.attn_emb_mask = repeat_tensor 7 2) ∧
    (∃ di,
      M2TransformerModel.prepare_beamsearch_decoder_input 1
          (⟨[10], [3], [7], 1, 0, 2⟩ : BeamStepInput Nat)
          ⟨some [10, 10], none, some [7, 7], some [[5], [6]], none, none⟩
        = Except.ok
            (di, ⟨some [10, 10], none, some [7, 7], some [[5], [6]], none, none⟩) ∧
      di.attn_embs = [10, 10] ∧ di.attn_emb_mask = [7, 7]) ∧
    (∃ di st',
      EventCondTransformerModel.prepare_beamsearch_decoder_input 1 0
          (⟨[]⟩ : EventEncoder)
          (⟨[10], [3], [7], 0, 0, 2⟩ : BeamStepInput Nat) [[1]] BeamState.empty
        = Except.ok (di, st') ∧
      st' = { (BeamState.empty : BeamState Nat) with
              attn_embs := some (repeat_tensor 10 2)
              attn_emb_lens := some (repeat_tensor 3 2)
              events := some (repeat_tensor [] 2) } ∧
      di.events = repeat_tensor [] 2) ∧
    (∃ di,
      EventCondTransformerModel.prepare_beamsearch_decoder_input 1 0
          (⟨[]⟩ : EventEncoder)
          (⟨[10], [3], [7], 1, 0, 2⟩ : BeamStepInput Nat) [[1]]
          ⟨some [10, 10], some [3, 3], none, some [[5], [6]], some [[9]], none⟩
        = Except.ok
            (di, ⟨some [10, 10], some [3, 3], none, some [[5], [6]],
                  some [[9]], none⟩) ∧
      di.events = [[9]]) ∧
    (∃ di st',
      KeywordCondTransformerModel.prepare_beamsearch_decoder_input 1 0
          (⟨[10], [3], [7], 0, 0, 2⟩ : BeamStepInput Nat) [55] BeamState.empty
        = Except.ok (di, st') ∧
      st' = { (BeamState.empty : BeamState Nat) with
              attn_embs := some (repeat_tensor 10 2)
              attn_emb_lens := some (repeat_tensor 3 2)
              keywords := some (repeat_tensor 55 2) } ∧
      di.keywords = repeat_tensor 55 2) ∧
    (∃ di,
      KeywordCondTransformerModel.prepare_beamsearch_decoder_input 1 0
          (⟨[10], [3], [7], 1, 0, 2⟩ : BeamStepInput Nat) [55]
          ⟨some [10, 10], some [3, 3], none, some [[5], [6]], none, some [77]⟩
        = Except.ok
            (di, ⟨some [10, 10], some [3, 3], none, some [[5], [6]], none,
                  some [77]⟩) ∧
      di.keywords = [77]) :=
  ⟨(beamsearch_cache_only_at_t0 1 0).1 _ BeamState.empty 10 3 rfl rfl rfl,
   (beamsearch_cache_only_at_t0 1 0).2.1 _ _ [10, 10] [3, 3] [[5], [6]]
     (by decide) rfl rfl rfl,
   (beamsearch_cache_only_at_t0 1 0).2.2.1 _ BeamState.empty 10 7 rfl rfl rfl,
   (beamsearch_cache_only_at_t0 1 0).2.2.2.1 _ _ [10, 10] [7, 7] [[5], [6]]
     (by decide) rfl rfl rfl,
   (beamsearch_cache_only_at_t0 1 0).2.2.2.2.1 ⟨[]⟩ _ [[1]] BeamState.empty
     10 3 [] rfl rfl rfl rfl,
   (beamsearch_cache_only_at_t0 1 0).2.2.2.2.2.1 ⟨[]⟩ _ [[1]] _ [10, 10]
     [3, 3] [[5], [6]] [[9]] (by decide) rfl rfl rfl rfl,
   (beamsearch_cache_only_at_t0 1 0).2.2.2.2.2.2.1 _ [55] BeamState.empty
     10 3 55 rfl rfl rfl rfl,
   (beamsearch_cache_only_at_t0 1 0).2.2.2.2.2.2.2 _ [55] _ [10, 10] [3, 3]
     [[5], [6]] [77] (by decide) rfl rfl rfl rfl⟩

/-- C3: the decoder-input word is chosen by a rule evaluated fresh on every
call (the per-call uniform draw is the explicit argument `r`): in training
mode with `r` below the scheduled-sampling probability it is the
ground-truth prefix `caps[:, :t+1]` of length t+1; otherwise it is the
start-token column concatenated with the first t generated tokens (for
t=0, just the start-token column) — for both variants defining
`prepare_decoder_input`. -/
theorem prepare_decoder_input_word_rule {α : Type} (start_idx pad_idx : Int) :
    (∀ (input : StepInput α) (output : RunningOutput) (r : Rat),
      input.mode = "train" → r < input.ss_prob →
        (TransformerModel.prepare_decoder_input start_idx pad_idx input
            output r).word = takeCols (input.t + 1) input.caps ∧
        (M2TransformerModel.prepare_decoder_input start_idx input
            output r).word = takeCols (input.t + 1) input.caps ∧
        ((∀ row ∈ input.caps, input.t + 1 ≤ row.length) →
          ∀ row ∈ takeCols (input.t + 1) input.caps,
            row.length = input.t + 1)) ∧
    (∀ (input : StepInput α) (output : RunningOutput) (r : Rat),
      ¬ (input.mode = "train" ∧ r < input.ss_prob) →
      output.seqs.length = input.attn_embs.length →
        (TransformerModel.prepare_decoder_input start_idx pad_idx input
            output r).word
          = catCols (startColumn start_idx input.attn_embs.length)
              (takeCols input.t output.seqs) ∧
        (M2TransformerModel.prepare_decoder_input start_idx input
            output r).word
          = catCols (startColumn start_idx input.attn_embs.length)
              (takeCols input.t output.seqs)) := by
  constructor
  · intro input output r h1 h2
    refine ⟨?_, ?_, ?_⟩
    · simp [TransformerModel.prepare_decoder_input, h1, h2]
    · simp [M2TransformerModel.prepare_decoder_input, h1, h2]
    · intro hlen row hrow
      simp only [takeCols, List.mem_map] at hrow
      obtain ⟨rr, hrr, rfl⟩ := hrow
      simp [List.length_take, Nat.min_eq_left (hlen rr hrr)]
  · intro input output r hc hlen
    constructor
    · by_cases ht : input.t = 0
      · have hw : (TransformerModel.prepare_decoder_input start_idx pad_idx
            input output r).word
            = startColumn start_idx input.attn_embs.length := by
          simp [TransformerModel.prepare_decoder_input, hc, ht]
        rw [hw, ht]
        exact (catCols_takeZero _ _ (by simp [startColumn, hlen])).symm
      · simp [TransformerModel.prepare_decoder_input, hc, ht]
    · by_cases ht : input.t = 0
      · have hw : (M2TransformerModel.prepare_decoder_input start_idx
            input output r).word
            = startColumn start_idx input.attn_embs.length := by
          simp [M2TransformerModel.prepare_decoder_input, hc, ht]
        rw [hw, ht]
        exact (catCols_takeZero _ _ (by simp [startColumn, hlen])).symm
      · simp [M2TransformerModel.prepare_decoder_input, hc, ht]

/-- C3 witness: both branches of the rule at concrete inputs (teacher
forcing with draw 0 below probability 1; free-running in "sample" mode at
t=1). -/
theorem prepare_decoder_input_word_rule_witness :
    ((TransformerModel.prepare_decoder_input 1 0
        (⟨[10], [3], [7], 0, "train", 1, [[4, 5]]⟩ : StepInput Nat)
        ⟨[[6]]⟩ 0).word = takeCols 1 [[4, 5]] ∧
     (M2TransformerModel.prepare_decoder_input 1
        (⟨[10], [3], [7], 0, "train", 1, [[4, 5]]⟩ : StepInput Nat)
        ⟨[[6]]⟩ 0).word = takeCols 1 [[4, 5]] ∧
     ((∀ row ∈ [[(4:Int), 5]], 0 + 1 ≤ row.length) →
       ∀ row ∈ takeCols (0 + 1) [[(4:Int), 5]], row.length = 0 + 1)) ∧
    ((TransformerModel.prepare_decoder_input 1 0
        (⟨[10], [3], [7], 1, "sample", 1, [[4, 5]]⟩ : StepInput Nat)
        ⟨[[6]]⟩ 0).word
      = catCols (startColumn 1 1) (takeCols 1 [[6]]) ∧
     (M2TransformerModel.prepare_decoder_input 1
        (⟨[10], [3], [7], 1, "sample", 1, [[4, 5]]⟩ : StepInput Nat)
        ⟨[[6]]⟩ 0).word
      = catCols (startColumn 1 1) (takeCols 1 [[6]])) :=
  ⟨(prepare_decoder_input_word_rule 1 0).1 _ ⟨[[6]]⟩ 0 rfl zero_lt_one,
   (prepare_decoder_input_word_rule 1 0).2 _ ⟨[[6]]⟩ 0
     (fun h => by simpa using h.1) rfl⟩

theorem TM_beam_mask_inv (start_idx pad_idx : Int) (input : BeamStepInput α)
    (st : BeamState α) (di : TMDecoderInput α) (st' : BeamState α)
    (h : TransformerModel.prepare_beamsearch_decoder_input start_idx pad_idx
      input st = Except.ok (di, st')) :
    di.caps_padding_mask = eqMask pad_idx di.word := by
  by_cases ht : input.t = 0
  · rcases hA : input.attn_embs[input.sample_idx]? with _ | a
    · exfalso
      simp [TransformerModel.prepare_beamsearch_decoder_input, ht, getIdx,
        hA] at h
    · rcases hL : input.attn_emb_lens[input.sample_idx]? with _ | l
      · exfalso
        simp [TransformerModel.prepare_beamsearch_decoder_input, ht, getIdx,
          hA, hL] at h
      · rw [TM_beam_t0 start_idx pad_idx input st a l ht hA hL] at h
        injection h with hpair
        injection hpair with hdi hst
        subst hdi
        rfl
  · rcases hA : st.attn_embs with _ | a
    · obtain ⟨e, he⟩ := TM_beam_tpos_missing start_idx pad_idx input st ht
        (Or.inl hA)
      rw [he] at h
      cases h
    · rcases hL : st.attn_emb_lens with _ | l
      · obtain ⟨e, he⟩ := TM_beam_tpos_missing start_idx pad_idx input st ht
          (Or.inr (Or.inl hL))
        rw [he] at h
        cases h
      · rcases hS : st.seqs with _ | s
        · obtain ⟨e, he⟩ := TM_beam_tpos_missing start_idx pad_idx input st ht
            (Or.inr (Or.inr hS))
          rw [he] at h
          cases h
        · rw [TM_beam_tpos start_idx pad_idx input st a l s ht hA hL hS] at h
          injection h with hpair
          injection hpair with hdi hst
          subst hdi
          rfl

theorem Event_beam_mask_inv (start_idx pad_idx : Int) (enc : EventEncoder)
    (input : BeamStepInput α) (events : List (List Rat)) (st : BeamState α)
    (di : EventDecoderInput α) (st' : BeamState α)
    (h : EventCondTransformerModel.prepare_beamsearch_decoder_input start_idx
      pad_idx enc input events st = Except.ok (di, st')) :
    di.caps_padding_mask = eqMask pad_idx di.word := by
  unfold EventCondTransformerModel.prepare_beamsearch_decoder_input at h
  rcases hTM : TransformerModel.prepare_beamsearch_decoder_input start_idx
      pad_idx input st with e | p
  · rw [hTM] at h
    cases h
  · rw [hTM] at h
    obtain ⟨base, st1⟩ := p
    have hbase : base.caps_padding_mask = eqMask pad_idx base.word :=
      TM_beam_mask_inv start_idx pad_idx input st base st1 hTM
    simp only [getKey, getIdx] at h
    repeat' split at h
    all_goals try cases h
    all_goals simp_all

theorem KW_beam_mask_inv (start_idx pad_idx : Int)
    (input : BeamStepInput α) (keywords : List α) (st : BeamState α)
    (di : KWDecoderInput α) (st' : BeamState α)
    (h : KeywordCondTransformerModel.prepare_beamsearch_decoder_input start_idx
      pad_idx input keywords st = Except.ok (di, st')) :
    di.caps_padding_mask = eqMask pad_idx di.word := by
  unfold KeywordCondTransformerModel.prepare_beamsearch_decoder_input at h
  rcases hTM : TransformerModel.prepare_beamsearch_decoder_input start_idx
      pad_idx input st with e | p
  · rw [hTM] at h
    cases h
  · rw [hTM] at h
    obtain ⟨base, st1⟩ := p
    have hbase : base.caps_padding_mask = eqMask pad_idx base.word :=
      TM_beam_mask_inv start_idx pad_idx input st base st1 hTM
    simp only [getKey, getIdx] at h
    repeat' split at h
    all_goals try cases h
    all_goals simp_all

theorem eqMask_dropLastCol (pad_idx : Int) (m : Mat) :
    dropLastCol (eqMask pad_idx m) = eqMask pad_idx (dropLastCol m) := by
  simp only [dropLastCol, eqMask, List.map_map]
  exact List.map_congr_left (fun r _ => (List.map_dropLast _ r).symm)

/-- C7: every decoder-input record produced by the primary variant and its
event/keyword-conditioned subclasses — via `seq_forward`,
`prepare_decoder_input` and `prepare_beamsearch_decoder_input` — carries a
`caps_padding_mask` equal to the elementwise comparison `(word == pad_idx)`
over that record's word tensor. -/
theorem caps_padding_mask_matches_word {α : Type} (start_idx pad_idx : Int) :
    (∀ (input : SeqForwardInput α),
      (TransformerModel.seq_forward pad_idx (fun di => di)
          input).caps_padding_mask
        = eqMask pad_idx
            (TransformerModel.seq_forward pad_idx (fun di => di)
              input).word) ∧
    (∀ (input : SeqForwardInput α),
      (KeywordCondTransformerModel.seq_forward pad_idx (fun di => di)
          input).caps_padding_mask
        = eqMask pad_idx
            (KeywordCondTransformerModel.seq_forward pad_idx (fun di => di)
              input).word) ∧
    (∀ (input : StepInput α) (output : RunningOutput) (r : Rat),
      (TransformerModel.prepare_decoder_input start_idx pad_idx input output
          r).caps_padding_mask
        = eqMask pad_idx
            (TransformerModel.prepare_decoder_input start_idx pad_idx input
              output r).word) ∧
    (∀ (enc : EventEncoder) (input : StepInput α) (events : List (List Rat))
        (output : RunningOutput) (r : Rat),
      (EventCondTransformerModel.prepare_decoder_input start_idx pad_idx enc
          input events output r).caps_padding_mask
        = eqMask pad_idx
            (EventCondTransformerModel.prepare_decoder_input start_idx pad_idx
              enc input events output r).word) ∧
    (∀ (input : StepInput α) (keywords : List α) (output : RunningOutput)
        (r : Rat),
      (KeywordCondTransformerModel.prepare_decoder_input start_idx pad_idx
          input keywords output r).caps_padding_mask
        = eqMask pad_idx
            (KeywordCondTransformerModel.prepare_decoder_input start_idx
              pad_idx input keywords output r).word) ∧
    (∀ (input : BeamStepInput α) (st : BeamState α) (di : TMDecoderInput α)
        (st' : BeamState α),
      TransformerModel.prepare_beamsearch_decoder_input start_idx pad_idx
          input st = Except.ok (di, st') →
      di.caps_padding_mask = eqMask pad_idx di.word) ∧
    (∀ (enc : EventEncoder) (input : BeamStepInput α)
        (events : List (List Rat)) (st : BeamState α)
        (di : EventDecoderInput α) (st' : BeamState α),
      EventCondTransformerModel.prepare_beamsearch_decoder_input start_idx
          pad_idx enc input events st = Except.ok (di, st') →
      di.caps_padding_mask = eqMask pad_idx di.word) ∧
    (∀ (input : BeamStepInput α) (keywords : List α) (st : BeamState α)
        (di : KWDecoderInput α) (st' : BeamState α),
      KeywordCondTransformerModel.prepare_beamsearch_decoder_input start_idx
          pad_idx input keywords st = Except.ok (di, st') →
      di.caps_padding_mask = eqMask pad_idx di.word) := by
  refine ⟨?_, ?_, ?_, ?_, ?_, ?_, ?_, ?_⟩
  · intro input
    simpa [TransformerModel.seq_forward]
      using eqMask_dropLastCol pad_idx input.caps
  · intro input
    simpa [KeywordCondTransformerModel.seq_forward]
      using eqMask_dropLastCol pad_idx input.caps
  · intro input output r
    rfl
  · intro enc input events output r
    rfl
  · intro input keywords output r
    rfl
  · intro input st di st' h
    exact TM_beam_mask_inv start_idx pad_idx input st di st' h
  · intro enc input events st di st' h
    exact Event_beam_mask_inv start_idx pad_idx enc input events st di st' h
  · intro input keywords st di st' h
    exact KW_beam_mask_inv start_idx pad_idx input keywords st di st' h

/-- C7 witness: the padding-mask property instantiated at concrete inputs
for all eight record-producing paths. -/
theorem caps_padding_mask_matches_word_witness :
    ((TransformerModel.seq_forward 0 (fun di => di)
        (⟨[[4, 0]], [10], [3], [7], [55]⟩ : SeqForwardInput Nat)).caps_padding_mask
      = eqMask 0
          (TransformerModel.seq_forward 0 (fun di => di)
            (⟨[[4, 0]], [10], [3], [7], [55]⟩ : SeqForwardInput Nat)).word) ∧
    ((KeywordCondTransformerModel.seq_forward 0 (fun di => di)
        (⟨[[4, 0]], [10], [3], [7], [55]⟩ : SeqForwardInput Nat)).caps_padding_mask
      = eqMask 0
          (KeywordCondTransformerModel.seq_forward 0 (fun di => di)
            (⟨[[4, 0]], [10], [3], [7], [55]⟩ : SeqForwardInput Nat)).word) ∧
    ((TransformerModel.prepare_decoder_input 1 0
        (⟨[10], [3], [7], 0, "train", 1, [[4, 0]]⟩ : StepInput Nat)
        ⟨[[6]]⟩ 0).caps_padding_mask
      = eqMask 0
          (TransformerModel.prepare_decoder_input 1 0
            (⟨[10], [3], [7], 0, "train", 1, [[4, 0]]⟩ : StepInput Nat)
            ⟨[[6]]⟩ 0).word) ∧
    ((EventCondTransformerModel.prepare_decoder_input 1 0 ⟨[]⟩
        (⟨[10], [3], [7], 0, "train", 1, [[4, 0]]⟩ : StepInput Nat)
        [[1]] ⟨[[6]]⟩ 0).caps_padding_mask
      = eqMask 0
          (EventCondTransformerModel.prepare_decoder_input 1 0 ⟨[]⟩
            (⟨[10], [3], [7], 0, "train", 1, [[4, 0]]⟩ : StepInput Nat)
            [[1]] ⟨[[6]]⟩ 0).word) ∧
    ((KeywordCondTransformerModel.prepare_decoder_input 1 0
        (⟨[10], [3], [7], 0, "train", 1, [[4, 0]]⟩ : StepInput Nat)
        [55] ⟨[[6]]⟩ 0).caps_padding_mask
      = eqMask 0
          (KeywordCondTransformerModel.prepare_decoder_input 1 0
            (⟨[10], [3], [7], 0, "train", 1, [[4, 0]]⟩ : StepInput Nat)
            [55] ⟨[[6]]⟩ 0).word) ∧
    ((⟨startColumn 1 2, repeat_tensor 10 2, repeat_tensor 3 2,
        eqMask 0 (startColumn 1 2)⟩ : TMDecoderInput Nat).caps_padding_mask
      = eqMask 0
          (⟨startColumn 1 2, repeat_tensor 10 2, repeat_tensor 3 2,
            eqMask 0 (startColumn 1 2)⟩ : TMDecoderInput Nat).word) ∧
    ((⟨startColumn 1 2, repeat_tensor 10 2, repeat_tensor 3 2,
        eqMask 0 (startColumn 1 2),
        repeat_tensor [] 2⟩ : EventDecoderInput Nat).caps_padding_mask
      = eqMask 0
          (⟨startColumn 1 2, repeat_tensor 10 2, repeat_tensor 3 2,
            eqMask 0 (startColumn 1 2),
            repeat_tensor [] 2⟩ : EventDecoderInput Nat).word) ∧
    ((⟨startColumn 1 2, repeat_tensor 10 2, repeat_tensor 3 2,
        eqMask 0 (startColumn 1 2),
        repeat_tensor 55 2⟩ : KWDecoderInput Nat).caps_padding_mask
      = eqMask 0
          (⟨startColumn 1 2, repeat_tensor 10 2, repeat_tensor 3 2,
            eqMask 0 (startColumn 1 2),
            repeat_tensor 55 2⟩ : KWDecoderInput Nat).word) :=
  ⟨(caps_padding_mask_matches_word 1 0).1 _,
   (caps_padding_mask_matches_word 1 0).2.1 _,
   (caps_padding_mask_matches_word 1 0).2.2.1 _ ⟨[[6]]⟩ 0,
   (caps_padding_mask_matches_word 1 0).2.2.2.1 ⟨[]⟩ _ [[1]] ⟨[[6]]⟩ 0,
   (caps_padding_mask_matches_word 1 0).2.2.2.2.1 _ [55] ⟨[[6]]⟩ 0,
   (caps_padding_mask_matches_word 1 0).2.2.2.2.2.1
     (⟨[10], [3], [7], 0, 0, 2⟩ : BeamStepInput Nat) BeamState.empty _
     ⟨some (repeat_tensor 10 2), some (repeat_tensor 3 2), none, none, none,
      none⟩ rfl,
   (caps_padding_mask_matches_word 1 0).2.2.2.2.2.2.1 ⟨[]⟩
     (⟨[10], [3], [7], 0, 0, 2⟩ : BeamStepInput Nat) [[1]] BeamState.empty _
     ⟨some (repeat_tensor 10 2), some (repeat_tensor 3 2), none, none,
      some (repeat_tensor [] 2), none⟩ rfl,
   (caps_padding_mask_matches_word 1 0).2.2.2.2.2.2.2
     (⟨[10], [3], [7], 0, 0, 2⟩ : BeamStepInput Nat) [55] BeamState.empty _
     ⟨some (repeat_tensor 10 2), some (repeat_tensor 3 2), none, none, none,
      some (repeat_tensor 55 2)⟩ rfl⟩

/-- C6: for every variant defining `seq_forward`, the decoder is invoked
exactly once (extensionally: the result is the decoder applied to one
assembled record), the word input is the caption tensor with its final
token dropped (`caps[:, :-1]`, length L-1 for caption length L), and the
decoder's result is returned unchanged. -/
theorem seq_forward_invokes_decoder_on_truncated_caps {α γ : Type}
    (pad_idx : Int) :
    (∀ (decoder : TMDecoderInput α → γ) (input : SeqForwardInput α),
      TransformerModel.seq_forward pad_idx decoder input
        = decoder
            { word := dropLastCol input.caps
              attn_embs := input.attn_embs
              attn_emb_lens := input.attn_emb_lens
              caps_padding_mask := dropLastCol (eqMask pad_idx input.caps) }) ∧
    (∀ (decoder : M2DecoderInput α → γ) (input : SeqForwardInput α),
      M2TransformerModel.seq_forward decoder input
        = decoder
            { word := dropLastCol input.caps
              attn_embs := input.attn_embs
              attn_emb_mask := input.attn_emb_mask }) ∧
    (∀ (decoder : KWDecoderInput α → γ) (input : SeqForwardInput α),
      KeywordCondTransformerModel.seq_forward pad_idx decoder input
        = decoder
            { word := dropLastCol input.caps
              attn_embs := input.attn_embs
              attn_emb_lens := input.attn_emb_lens
              caps_padding_mask := dropLastCol (eqMask pad_idx input.caps)
              keywords := input.keywords }) ∧
    (∀ (L : Nat) (caps : Mat),
      (∀ row ∈ caps, row.length = L) →
      ∀ row ∈ dropLastCol caps, row.length = L - 1) := by
  refine ⟨fun decoder input => rfl, fun decoder input => rfl,
    fun decoder input => rfl, ?_⟩
  intro L caps hlen row hrow
  simp only [dropLastCol, List.mem_map] at hrow
  obtain ⟨rr, hrr, rfl⟩ := hrow
  simp [List.length_dropLast, hlen rr hrr]

/-- C6 witness: the four conjuncts at a concrete batch (captions of length
2, identity decoder). -/
theorem seq_forward_invokes_decoder_on_truncated_caps_witness :
    (TransformerModel.seq_forward 0 (fun di => di)
        (⟨[[4, 5]], [10], [3], [7], [55]⟩ : SeqForwardInput Nat)
      = ({ word := dropLastCol [[4, 5]]
           attn_embs := [10]
           attn_emb_lens := [3]
           caps_padding_mask :=
             dropLastCol (eqMask 0 [[4, 5]]) } : TMDecoderInput Nat)) ∧
    (M2TransformerModel.seq_forward (fun di => di)
        (⟨[[4, 5]], [10], [3], [7], [55]⟩ : SeqForwardInput Nat)
      = ({ word := dropLastCol [[4, 5]]
           attn_embs := [10]
           attn_emb_mask := [7] } : M2DecoderInput Nat)) ∧
    (KeywordCondTransformerModel.seq_forward 0 (fun di => di)
        (⟨[[4, 5]], [10], [3], [7], [55]⟩ : SeqForwardInput Nat)
      = ({ word := dropLastCol [[4, 5]]
           attn_embs := [10]
           attn_emb_lens := [3]
           caps_padding_mask := dropLastCol (eqMask 0 [[4, 5]])
           keywords := [55] } : KWDecoderInput Nat)) ∧
    (∀ row ∈ dropLastCol [[(4:Int), 5]], row.length = 2 - 1) :=
  ⟨(seq_forward_invokes_decoder_on_truncated_caps 0).1 (fun di => di) _,
   (seq_forward_invokes_decoder_on_truncated_caps (α := Nat) (γ := M2DecoderInput Nat) 0).2.1 (fun di => di) _,
   (seq_forward_invokes_decoder_on_truncated_caps 0).2.2.1 (fun di => di) _,
   (seq_forward_invokes_decoder_on_truncated_caps (α := Nat) (γ := Unit) 0).2.2.2 2 [[4, 5]]
     (by decide)⟩

/-- C8: when the mode is not training, `prepare_decoder_input` never reads
the ground-truth captions: two step contexts agreeing on everything except
`caps` (and even using different random draws) produce identical
decoder-input records, for both variants. -/
theorem prepare_decoder_input_ignores_caps_outside_training {α : Type}
    (start_idx pad_idx : Int) :
    (∀ (ae ael aem : List α) (t : Nat) (mode : String) (ss : Rat)
        (caps₁ caps₂ : Mat) (output : RunningOutput) (r₁ r₂ : Rat),
      mode ≠ "train" →
      TransformerModel.prepare_decoder_input start_idx pad_idx
          ⟨ae, ael, aem, t, mode, ss, caps₁⟩ output r₁
        = TransformerModel.prepare_decoder_input start_idx pad_idx
            ⟨ae, ael, aem, t, mode, ss, caps₂⟩ output r₂) ∧
    (∀ (ae ael aem : List α) (t : Nat) (mode : String) (ss : Rat)
        (caps₁ caps₂ : Mat) (output : RunningOutput) (r₁ r₂ : Rat),
      mode ≠ "train" →
      M2TransformerModel.prepare_decoder_input start_idx
          ⟨ae, ael, aem, t, mode, ss, caps₁⟩ output r₁
        = M2TransformerModel.prepare_decoder_input start_idx
            ⟨ae, ael, aem, t, mode, ss, caps₂⟩ output r₂) := by
  constructor
  · intro ae ael aem t mode ss caps₁ caps₂ output r₁ r₂ hmode
    simp [TransformerModel.prepare_decoder_input, hmode]
  · intro ae ael aem t mode ss caps₁ caps₂ output r₁ r₂ hmode
    simp [M2TransformerModel.prepare_decoder_input, hmode]

/-- C8 witness: in "sample" mode, two calls with different ground-truth
captions (and different draws) coincide, for both variants. -/
theorem prepare_decoder_input_ignores_caps_outside_training_witness :
    (TransformerModel.prepare_decoder_input 1 0
        (⟨[10], [3], [7], 0, "sample", 1, [[4, 5]]⟩ : StepInput Nat) ⟨[[6]]⟩ 0
      = TransformerModel.prepare_decoder_input 1 0
          (⟨[10], [3], [7], 0, "sample", 1, [[8, 9]]⟩ : StepInput Nat)
          ⟨[[6]]⟩ (1 / 2)) ∧
    (M2TransformerModel.prepare_decoder_input 1
        (⟨[10], [3], [7], 0, "sample", 1, [[4, 5]]⟩ : StepInput Nat) ⟨[[6]]⟩ 0
      = M2TransformerModel.prepare_decoder_input 1
          (⟨[10], [3], [7], 0, "sample", 1, [[8, 9]]⟩ : StepInput Nat)
          ⟨[[6]]⟩ (1 / 2)) :=
  ⟨(prepare_decoder_input_ignores_caps_outside_training 1 0).1
     [10] [3] [7] 0 "sample" 1 [[4, 5]] [[8, 9]] ⟨[[6]]⟩ 0 (1 / 2)
     (by decide),
   (prepare_decoder_input_ignores_caps_outside_training 1 0).2
     [10] [3] [7] 0 "sample" 1 [[4, 5]] [[8, 9]] ⟨[[6]]⟩ 0 (1 / 2)
     (by decide)⟩

/-- C4: constructing the alternative transformer variant with an encoder
that is not of the matching M2 family fails with a configuration error at
construction time (inside `__init__`, before any forward/step call can be
made); with the matching encoder and a compatible decoder, construction
succeeds. -/
theorem m2_construction_checks_encoder :
    (∀ enc : EncoderClass,
      M2TransformerModel.init enc DecoderClass.M2TransformerDecoder
          = Except.ok ()
        ↔ enc = EncoderClass.M2TransformerEncoder) ∧
    M2TransformerModel.init EncoderClass.OtherEncoder
        DecoderClass.M2TransformerDecoder
      = Except.error
          "ConfigurationError: encoder incompatible with M2TransformerModel" := by
  constructor
  · intro enc
    cases enc <;> simp [M2TransformerModel.init, CaptionModel.init,
      isinstanceDecoder, M2TransformerModel.initCompat, setIfAbsent,
      M2TransformerModel.check_encoder_compatibility]
  · rfl

/-- C5 counterexample: the claim that every variant's compatible_decoders
is a tuple fails for the alternative variant — its literal
`(M2TransformerDecoder)` has no trailing comma, so after construction the
attribute is the bare class, not a tuple. -/
theorem m2_compatible_decoders_not_tuple :
    M2TransformerModel.initCompat none
        = some (PyClassVal.cls DecoderClass.M2TransformerDecoder) ∧
    PyClassVal.isTuple (PyClassVal.cls DecoderClass.M2TransformerDecoder)
        = false :=
  ⟨rfl, rfl⟩

/-- C5 (amended): after construction the compatible_decoders attribute
holds exactly the declared decoder class(es), but only the primary and
keyword-conditioned variants wrap them in a one-element tuple; the
alternative and event-conditioned variants store the bare class. -/
theorem compatible_decoders_after_construction :
    TransformerModel.initCompat none
        = some (PyClassVal.tuple [DecoderClass.TransformerDecoder]) ∧
    M2TransformerModel.initCompat none
        = some (PyClassVal.cls DecoderClass.M2TransformerDecoder) ∧
    EventCondTransformerModel.initCompat none
        = some (PyClassVal.cls DecoderClass.EventTransformerDecoder) ∧
    KeywordCondTransformerModel.initCompat none
        = some (PyClassVal.tuple [DecoderClass.KeywordProbTransformerDecoder]) :=
  ⟨rfl, rfl, rfl, rfl⟩

theorem sum_map_div (l : List Rat) (b : Rat) :
    (l.map (fun x => x / b)).sum = l.sum / b := by
  induction l with
  | nil => simp
  | cons x xs ih => simp [ih, add_div]

/-- C9: under the precondition that every label row is non-negative with a
strictly positive sum, the row-sum division in `EventEncoder.forward` is
well-defined (the denominator is nonzero) and each normalized row is a
probability distribution summing to 1; the output is that distribution
matrix-multiplied with the learned label-embedding table. -/
theorem event_encoder_normalizes_to_distribution (enc : EventEncoder)
    (w : List (List Rat))
    (hnn : ∀ row ∈ w, ∀ x ∈ row, 0 ≤ x)
    (hpos : ∀ row ∈ w, 0 < row.sum) :
    EventEncoder.forward enc w
        = matMul (w.map (fun row => row.map (fun x => x / row.sum)))
            enc.label_embedding ∧
    ∀ row ∈ w, row.sum ≠ 0 ∧ (row.map (fun x => x / row.sum)).sum = 1 := by
  refine ⟨rfl, ?_⟩
  intro row hrow
  have hs : row.sum ≠ 0 := ne_of_gt (hpos row hrow)
  exact ⟨hs, by rw [sum_map_div, div_self hs]⟩

/-- C9 witness: a single one-hot label row. -/
theorem event_encoder_normalizes_to_distribution_witness :
    EventEncoder.forward ⟨[[2]]⟩ [[1]]
        = matMul ([[1]].map (fun row => row.map (fun x => x / row.sum)))
            [[2]] ∧
    ∀ row ∈ [[(1:Rat)]],
      row.sum ≠ 0 ∧ (row.map (fun x => x / row.sum)).sum = 1 :=
  event_encoder_normalizes_to_distribution ⟨[[2]]⟩ [[1]]
    (by simp) (by simp)

/-- C10: for every t>0 call of the beam-search assembly, the cached
attention fields and `seqs` are read from the beam state: when all the
needed keys are present every lookup succeeds and a record is returned
(with the state unchanged), and when any is absent the call fails with a
missing-key error instead of returning a record — for both variants. -/
theorem beamsearch_tpos_key_precondition {α : Type} (start_idx pad_idx : Int) :
    (∀ (input : BeamStepInput α) (st : BeamState α),
      input.t ≠ 0 →
      ((∀ (a l : List α) (s : Mat),
          st.attn_embs = some a → st.attn_emb_lens = some l →
          st.seqs = some s →
          ∃ di, TransformerModel.prepare_beamsearch_decoder_input start_idx
              pad_idx input st = Except.ok (di, st)) ∧
       (st.attn_embs = none ∨ st.attn_emb_lens = none ∨ st.seqs = none →
          ∃ e, TransformerModel.prepare_beamsearch_decoder_input start_idx
              pad_idx input st = Except.error e))) ∧
    (∀ (input : BeamStepInput α) (st : BeamState α),
      input.t ≠ 0 →
      ((∀ (a m : List α) (s : Mat),
          st.attn_embs = some a → st.attn_emb_mask = some m →
          st.seqs = some s →
          ∃ di, M2TransformerModel.prepare_beamsearch_decoder_input start_idx
              input st = Except.ok (di, st)) ∧
       (st.attn_embs = none ∨ st.attn_emb_mask = none ∨ st.seqs = none →
          ∃ e, M2TransformerModel.prepare_beamsearch_decoder_input start_idx
              input st = Except.error e))) := by
  constructor
  · intro input st ht
    constructor
    · intro a l s ha hl hs
      exact ⟨_, TM_beam_tpos start_idx pad_idx input st a l s ht ha hl hs⟩
    · intro hmiss
      exact TM_beam_tpos_missing start_idx pad_idx input st ht hmiss
  · intro input st ht
    constructor
    · intro a m s ha hm hs
      exact ⟨_, M2_beam_tpos start_idx input st a m s ht ha hm hs⟩
    · intro hmiss
      exact M2_beam_tpos_missing start_idx input st ht hmiss

/-- C10 witness: both variants at t=1, once with the fully populated beam
state (success) and once with the fresh empty state (missing-key
failure). -/
theorem beamsearch_tpos_key_precondition_witness :
    (∃ di,
      TransformerModel.prepare_beamsearch_decoder_input 1 0
          (⟨[10], [3], [7], 1, 0, 2⟩ : BeamStepInput Nat)
          ⟨some [10, 10], some [3, 3], none, some [[5], [6]], none, none⟩
        = Except.ok
            (di, ⟨some [10, 10], some [3, 3], none, some [[5], [6]], none,
                  none⟩)) ∧
    (∃ e,
      TransformerModel.prepare_beamsearch_decoder_input 1 0
          (⟨[10], [3], [7], 1, 0, 2⟩ : BeamStepInput Nat) BeamState.empty
        = Except.error e) ∧
    (∃ di,
      M2TransformerModel.prepare_beamsearch_decoder_input 1
          (⟨[10], [3], [7], 1, 0, 2⟩ : BeamStepInput Nat)
          ⟨some [10, 10], none, some [7, 7], some [[5], [6]], none, none⟩
        = Except.ok
            (di, ⟨some [10, 10], none, some [7, 7], some [[5], [6]], none,
                  none⟩)) ∧
    (∃ e,
      M2TransformerModel.prepare_beamsearch_decoder_input 1
          (⟨[10], [3], [7], 1, 0, 2⟩ : BeamStepInput Nat) BeamState.empty
        = Except.error e) :=
  ⟨((beamsearch_tpos_key_precondition 1 0).1 _ _ (by decide)).1
     [10, 10] [3, 3] [[5], [6]] rfl rfl rfl,
   ((beamsearch_tpos_key_precondition 1 0).1 _ BeamState.empty
     (by decide)).2 (Or.inl rfl),
   ((beamsearch_tpos_key_precondition 1 0).2 _ _ (by decide)).1
     [10, 10] [7, 7] [[5], [6]] rfl rfl rfl,
   ((beamsearch_tpos_key_precondition 1 0).2 _ BeamState.empty
     (by decide)).2 (Or.inl rfl)⟩
